import Mathlib

/-!
Verification of the AIRefineryExpenseCompliance repository.

The repository contains two validators:

* the Policy Validation Engine described by the specification (a rules-based
  `validation_agent`): its implementation is not present under `src/`; only its
  test driver (`src/scripts/run_validation_tests.py`) remains.  Following the
  specification, the engine is modelled here from the spec text (definitions
  marked `Modelled from the spec:`).
* the LLM data-quality `validation_agent` of `src/agents.py` and the audit
  logger of `src/audit.py`, which are present under `src/` and embedded from
  that source directly.

Python runtime values are modelled by `PyVal`; JSON values are the same type
(the engine only ever produces JSON-serializable values).  Numbers are rational
(`ℚ`); machine floating point plays no role in any claim, and the policy
thresholds and test amounts are all exactly representable.
-/

/-- Dynamic (Python/JSON) value: None, bool, number, string, list or dict. -/
inductive PyVal where
  | none : PyVal
  | bool : Bool → PyVal
  | num : ℚ → PyVal
  | str : String → PyVal
  | list : List PyVal → PyVal
  | dict : List (String × PyVal) → PyVal

/-- Python truthiness: `None`, `False`, `0`, `""`, `[]`, `\x7b\x7d` are falsy. -/
def pyTruthy : PyVal → Bool
  | PyVal.none => false
  | PyVal.bool b => b
  | PyVal.num q => q != 0
  | PyVal.str s => s != ""
  | PyVal.list xs => !xs.isEmpty
  | PyVal.dict fs => !fs.isEmpty

/-- Truthiness for an optional field: a missing field is falsy. -/
def pyFalsy : Option PyVal → Bool
  | Option.none => true
  | Option.some v => !pyTruthy v

/-- Lookup of a key in an association list modelling a Python dict. -/
def lookupStr : List (String × PyVal) → String → Option PyVal
  | [], _ => Option.none
  | (k, v) :: rest, key => if k = key then Option.some v else lookupStr rest key

/-- Field access on a dict value (`none` when the value is not a dict
or the key is missing). -/
def pyGet (v : PyVal) (key : String) : Option PyVal :=
  match v with
  | PyVal.dict fs => lookupStr fs key
  | _ => Option.none

/-- Key list of a dict value. -/
def pyKeys : PyVal → List String
  | PyVal.dict fs => fs.map Prod.fst
  | _ => []

/-- ASCII lower-casing of one character (Python `str.lower` on the ASCII
range, which is all the category strings contain). -/
def charLower (ch : Char) : Char :=
  if 65 ≤ ch.toNat ∧ ch.toNat ≤ 90 then Char.ofNat (ch.toNat + 32) else ch

/-- Lower-casing of a string, character by character. -/
def strLower (s : String) : String := String.mk (s.data.map charLower)

/-- Whitespace test for `strTrim`. -/
def isSpaceChar (ch : Char) : Bool :=
  ch = ' ' ∨ ch = '\t' ∨ ch = '\n' ∨ ch = '\r'

/-- Removal of leading and trailing whitespace (Python `str.strip`). -/
def strTrim (s : String) : String :=
  String.mk (((s.data.dropWhile isSpaceChar).reverse.dropWhile isSpaceChar).reverse)

/-- Digits of a decimal literal read as a natural number. -/
def digitsToNat (l : List Char) : Nat :=
  l.foldl (fun a ch => a * 10 + (ch.toNat - 48)) 0

/-- Parse of a decimal literal (optional sign, digits, optional fraction),
modelling the strings accepted by Python `float`. -/
def parseDecimal (s : String) : Option ℚ :=
  let cs := s.data
  let signAndRest : ℤ × List Char :=
    match cs with
    | '-' :: rest => (-1, rest)
    | '+' :: rest => (1, rest)
    | _ => (1, cs)
  let sign := signAndRest.1
  let body := signAndRest.2
  let intPart := body.takeWhile Char.isDigit
  let rest := body.dropWhile Char.isDigit
  match rest with
  | [] =>
    if intPart.isEmpty then Option.none
    else Option.some (Rat.divInt (sign * (digitsToNat intPart : ℤ)) 1)
  | '.' :: fracRest =>
    let fracPart := fracRest.takeWhile Char.isDigit
    let rest2 := fracRest.dropWhile Char.isDigit
    if rest2.isEmpty && !(intPart.isEmpty && fracPart.isEmpty) then
      Option.some (Rat.divInt
        (sign * ((digitsToNat intPart : ℤ) * (10 : ℤ) ^ fracPart.length +
          (digitsToNat fracPart : ℤ)))
        ((10 : ℤ) ^ fracPart.length))
    else Option.none
  | _ => Option.none

/-- Parse of an integer literal (optional sign, digits), modelling the strings
accepted by Python `int`. -/
def parseIntLit (s : String) : Option ℤ :=
  let cs := s.data
  let signAndRest : ℤ × List Char :=
    match cs with
    | '-' :: rest => (-1, rest)
    | '+' :: rest => (1, rest)
    | _ => (1, cs)
  let body := signAndRest.2
  if body.isEmpty || !body.all Char.isDigit then Option.none
  else Option.some (signAndRest.1 * (digitsToNat body : ℤ))

/-- Truncation of a rational toward zero, as Python `int` applied to a float. -/
def ratTrunc (q : ℚ) : ℤ := q.num / (q.den : ℤ)

/-- Rational division written so that the kernel can evaluate it on concrete
inputs; `ratDiv_eq_div` below proves it is ordinary division on `ℚ`. -/
def ratDiv (a b : ℚ) : ℚ := Rat.divInt (a.num * (b.den : ℤ)) ((a.den : ℤ) * b.num)

/-- Python `float(x)`: numbers and bools convert, numeric strings parse,
everything else raises (modelled as `Except.error`). -/
def pyFloat : PyVal → Except String ℚ
  | PyVal.num q => Except.ok q
  | PyVal.bool b => Except.ok (if b then 1 else 0)
  | PyVal.str s =>
    match parseDecimal (strTrim s) with
    | Option.some q => Except.ok q
    | Option.none => Except.error "ValueError"
  | PyVal.none => Except.error "TypeError"
  | PyVal.list _ => Except.error "TypeError"
  | PyVal.dict _ => Except.error "TypeError"

/-- Python `int(x)`: numbers truncate toward zero, bools convert, integer
strings parse, everything else raises (modelled as `Except.error`). -/
def pyInt : PyVal → Except String ℤ
  | PyVal.num q => Except.ok (ratTrunc q)
  | PyVal.bool b => Except.ok (if b then 1 else 0)
  | PyVal.str s =>
    match parseIntLit (strTrim s) with
    | Option.some n => Except.ok n
    | Option.none => Except.error "ValueError"
  | PyVal.none => Except.error "TypeError"
  | PyVal.list _ => Except.error "TypeError"
  | PyVal.dict _ => Except.error "TypeError"

/-!
## Policy Validation Engine (modelled from the spec)

The engine implementation is not under `src/`; every definition in this
section is `Modelled from the spec:` (section 2 to section 4 of the
specification), faithful to its words, and checked against the expectations
recorded in `src/scripts/run_validation_tests.py`.
-/

/-- Modelled from the spec: the four final statuses of section 3. -/
inductive Status where
  | auto_approved : Status
  | approved : Status
  | needs_correction : Status
  | requires_higher_approval : Status
deriving DecidableEq

/-- String rendering of a status, as it appears in the JSON result. -/
def statusString : Status → String
  | Status.auto_approved => "auto_approved"
  | Status.approved => "approved"
  | Status.needs_correction => "needs_correction"
  | Status.requires_higher_approval => "requires_higher_approval"

/-- Modelled from the spec: `PolicyConfig` (section 3), the five numeric
policy constants. -/
structure PolicyConfig where
  lodging_limit_per_night : ℚ
  airfare_limit : ℚ
  high_value_threshold : ℚ
  routine_threshold : ℚ
  min_receipt_amount : ℚ

/-- Modelled from the spec: the default policy constants of section 3. -/
def defaultPolicy : PolicyConfig :=
  { lodging_limit_per_night := 200
    airfare_limit := 1500
    high_value_threshold := 1000
    routine_threshold := 500
    min_receipt_amount := 1 / 100 }

/-- Application of one override entry to a policy: a known key whose value
admits numeric interpretation replaces that field; everything else is
ignored (spec section 4.1). -/
def applyOverride (p : PolicyConfig) (kv : String × PyVal) : PolicyConfig :=
  match (pyFloat kv.2).toOption with
  | Option.none => p
  | Option.some q =>
    if kv.1 = "lodging_limit_per_night" then { p with lodging_limit_per_night := q }
    else if kv.1 = "airfare_limit" then { p with airfare_limit := q }
    else if kv.1 = "high_value_threshold" then { p with high_value_threshold := q }
    else if kv.1 = "routine_threshold" then { p with routine_threshold := q }
    else if kv.1 = "min_receipt_amount" then { p with min_receipt_amount := q }
    else p

/-- Modelled from the spec: `PolicyConfig.resolve` (section 4.1) starts from
the defaults and applies the caller-supplied overrides; unknown keys are
silently ignored; this step never fails. -/
def resolvePolicy (overrides : List (String × PyVal)) : PolicyConfig :=
  overrides.foldl applyOverride defaultPolicy

/-- Modelled from the spec: `ExpenseRecord` (section 3); any field may be
absent (`Option.none`) or hold an arbitrary, possibly invalid, value. -/
structure ExpenseRecord where
  vendor_name : Option PyVal
  date : Option PyVal
  total_amount : Option PyVal
  expense_category : Option PyVal
  nights : Option PyVal
  justification : Option PyVal
  cost_center : Option PyVal
  approver : Option PyVal

/-- Modelled from the spec: `EvaluationContext` (section 3); `nights` is
admitted here because rule 3 (section 4.3) reads a nights value from the
context with precedence over the expense record. -/
structure EvaluationContext where
  attachments : List PyVal
  claimed_amount : Option PyVal
  nights : Option PyVal
  policy_overrides : List (String × PyVal)
  user_id : Option String

/-- Modelled from the spec: the Normalizer (section 4.2).  The amount
prefers `expense.total_amount`, falling back to `context.claimed_amount`
when the former is absent; any conversion failure yields `Option.none`
instead of an error.  The category is the lower-cased `expense_category`
when it is a string, and `"other"` otherwise.  The function is total:
this is the single point where malformed input is absorbed. -/
def normalizeExpense (e : ExpenseRecord) (c : EvaluationContext) : Option ℚ × String :=
  let amt :=
    match e.total_amount with
    | Option.some v => (pyFloat v).toOption
    | Option.none =>
      match c.claimed_amount with
      | Option.some v => (pyFloat v).toOption
      | Option.none => Option.none
  let cat :=
    match e.expense_category with
    | Option.some (PyVal.str s) => strLower s
    | _ => "other"
  (amt, cat)

/-- Modelled from the spec: the StatusResolver (section 4.4).  Deterministic
precedence, evaluated top to bottom, first match wins. -/
def resolve (flags : List String) (auto_approved : Bool) : Status :=
  if auto_approved then Status.auto_approved
  else if "route_for_higher_approval" ∈ flags ∨ "lodging_limit_exceeded" ∈ flags ∨
      "airfare_limit_exceeded" ∈ flags then Status.requires_higher_approval
  else if "missing_receipt" ∈ flags ∨ "incomplete_reporting" ∈ flags ∨
      "invalid_category" ∈ flags then Status.needs_correction
  else Status.approved

/-- Output of one flag-evaluation rule: its issues, flags and suggested
actions, in emission order. -/
structure RuleOut where
  issues : List String
  flags : List String
  actions : List String

/-- The empty rule output. -/
def RuleOut.empty : RuleOut := { issues := [], flags := [], actions := [] }

/-- Output of the whole FlagEvaluator. -/
structure EvalOutput where
  issues : List String
  flags : List String
  actions : List String
  auto_approved : Bool

/-- Modelled from the spec: rule 1 (required fields), section 4.3.  The raw
`date`, `vendor_name` and `expense_category` must be present; any missing
produces one issue listing the missing field names and no dedicated flag. -/
def rule1 (e : ExpenseRecord) : RuleOut :=
  let missing :=
    (if e.date.isNone then ["date"] else []) ++
    (if e.vendor_name.isNone then ["vendor_name"] else []) ++
    (if e.expense_category.isNone then ["expense_category"] else [])
  if missing.isEmpty then RuleOut.empty
  else
    { issues := ["Missing required fields: " ++ String.intercalate ", " missing]
      flags := []
      actions := ["Provide the missing required fields"] }

/-- Modelled from the spec: rule 2 (receipt requirement), section 4.3.
A positive amount with no attachments yields flag `missing_receipt`. -/
def rule2 (attachments : List PyVal) (amt : Option ℚ) : RuleOut :=
  match amt with
  | Option.some a =>
    if a > 0 ∧ attachments.isEmpty then
      { issues := ["Expense has a positive amount but no receipt attached"]
        flags := ["missing_receipt"]
        actions := ["Attach receipt(s) for the expense"] }
    else RuleOut.empty
  | Option.none => RuleOut.empty

/-- The nights value examined by rule 3: the context value takes precedence
over the expense record (spec section 4.3, rule 3). -/
def nightsSupplied (e : ExpenseRecord) (c : EvaluationContext) : Option PyVal :=
  match c.nights with
  | Option.some v => Option.some v
  | Option.none => e.nights

/-- Nights coerced to an integer, defaulting to 1 on conversion failure and
floored at 1 so division is never by zero (spec section 4.3, rule 3). -/
def nightsCount (v : PyVal) : ℤ :=
  max (match pyInt v with
       | Except.ok n => n
       | Except.error _ => 1) 1

/-- Modelled from the spec: rule 3 (lodging per-night limit), section 4.3.
Applies only when the normalized category is `"lodging"` and a nights value
is explicitly supplied; a `null` amount makes the rule non-triggering. -/
def rule3 (pol : PolicyConfig) (e : ExpenseRecord) (c : EvaluationContext)
    (amt : Option ℚ) (cat : String) : RuleOut :=
  match nightsSupplied e c, amt with
  | Option.some v, Option.some a =>
    if cat = "lodging" ∧ ratDiv a (nightsCount v : ℚ) > pol.lodging_limit_per_night then
      { issues := ["Lodging per-night cost exceeds the nightly limit"]
        flags := ["lodging_limit_exceeded"]
        actions := ["Justify the nightly rate or reduce it"] }
    else RuleOut.empty
  | _, _ => RuleOut.empty

/-- Modelled from the spec: rule 4 (airfare/travel/transportation limit),
section 4.3. -/
def rule4 (pol : PolicyConfig) (amt : Option ℚ) (cat : String) : RuleOut :=
  match amt with
  | Option.some a =>
    if (cat = "airfare" ∨ cat = "travel" ∨ cat = "transportation") ∧
        a > pol.airfare_limit then
      { issues := ["Airfare or travel amount exceeds the airfare limit"]
        flags := ["airfare_limit_exceeded"]
        actions := ["Route the expense to a travel manager"] }
    else RuleOut.empty
  | Option.none => RuleOut.empty

/-- The valid categories of rule 5 (spec section 4.3). -/
def validCategories : List String :=
  ["meals", "travel", "supplies", "entertainment", "lodging", "transportation", "other"]

/-- Modelled from the spec: rule 5 (category validity), section 4.3. -/
def rule5 (cat : String) : RuleOut :=
  if cat ∉ validCategories then
    { issues := ["Expense category is not a recognized category"]
      flags := ["invalid_category"]
      actions := ["Pick a valid expense category"] }
  else RuleOut.empty

/-- Modelled from the spec: rule 6 (incomplete reporting), section 4.3.
A falsy raw `date` or a falsy raw `total_amount` is itself reportable. -/
def rule6 (e : ExpenseRecord) : RuleOut :=
  if pyFalsy e.date ∨ pyFalsy e.total_amount then
    { issues := ["Expense report is incomplete: date or total amount missing"]
      flags := ["incomplete_reporting"]
      actions := ["Supply the transaction date and total amount"] }
  else RuleOut.empty

/-- Modelled from the spec: rule 7 (high-value expense), section 4.3.
Three documentation sub-checks; if any fires, the flag
`route_for_higher_approval` is additionally appended. -/
def rule7 (pol : PolicyConfig) (e : ExpenseRecord) (c : EvaluationContext)
    (amt : Option ℚ) : RuleOut :=
  match amt with
  | Option.some a =>
    if a ≥ pol.high_value_threshold then
      let j : RuleOut :=
        if pyFalsy e.justification then
          { issues := ["High-value expense is missing a justification"]
            flags := ["high_value_missing_justification"]
            actions := ["Add a written justification"] }
        else RuleOut.empty
      let r : RuleOut :=
        if c.attachments.isEmpty then
          { issues := ["High-value expense has no supporting documents"]
            flags := ["high_value_missing_receipt"]
            actions := ["Attach supporting documents"] }
        else RuleOut.empty
      let ap : RuleOut :=
        if pyFalsy e.cost_center ∧ pyFalsy e.approver then
          { issues := ["High-value expense has no cost center or approver"]
            flags := ["high_value_missing_approval_info"]
            actions := ["Provide a cost center or an approver"] }
        else RuleOut.empty
      let route :=
        if j.flags ≠ [] ∨ r.flags ≠ [] ∨ ap.flags ≠ [] then
          ["route_for_higher_approval"]
        else []
      { issues := j.issues ++ r.issues ++ ap.issues
        flags := j.flags ++ r.flags ++ ap.flags ++ route
        actions := j.actions ++ r.actions ++ ap.actions }
    else RuleOut.empty
  | Option.none => RuleOut.empty

/-- Modelled from the spec: rule 8 (routine auto-approval eligibility),
section 4.3.  Sets `auto_approved` without appending an issue. -/
def rule8Auto (pol : PolicyConfig) (c : EvaluationContext) (amt : Option ℚ)
    (cat : String) (flagsSoFar : List String) : Bool :=
  match amt with
  | Option.some a =>
    decide (a ≤ pol.routine_threshold) && !c.attachments.isEmpty &&
      !(decide ("lodging_limit_exceeded" ∈ flagsSoFar)) &&
      !(decide ("airfare_limit_exceeded" ∈ flagsSoFar)) &&
      !(decide ("invalid_category" ∈ flagsSoFar)) &&
      (cat == "lodging" || cat == "travel" || cat == "transportation")
  | Option.none => false

/-- Modelled from the spec: the FlagEvaluator (section 4.3).  All rules run
unconditionally on the same normalized snapshot, in the fixed order 1 to 8;
issues, flags and actions are emitted in that order. -/
def evaluate (pol : PolicyConfig) (e : ExpenseRecord) (c : EvaluationContext) :
    EvalOutput :=
  let n := normalizeExpense e c
  let r1 := rule1 e
  let r2 := rule2 c.attachments n.1
  let r3 := rule3 pol e c n.1 n.2
  let r4 := rule4 pol n.1 n.2
  let r5 := rule5 n.2
  let r6 := rule6 e
  let r7 := rule7 pol e c n.1
  let flags7 := r1.flags ++ r2.flags ++ r3.flags ++ r4.flags ++ r5.flags ++
    r6.flags ++ r7.flags
  let auto := rule8Auto pol c n.1 n.2 flags7
  { issues := r1.issues ++ r2.issues ++ r3.issues ++ r4.issues ++ r5.issues ++
      r6.issues ++ r7.issues
    flags := flags7 ++ (if auto then ["auto_approved_routine"] else [])
    actions := r1.actions ++ r2.actions ++ r3.actions ++ r4.actions ++
      r5.actions ++ r6.actions ++ r7.actions
    auto_approved := auto }

/-- JSON rendering of an optional amount. -/
def optNumJson : Option ℚ → PyVal
  | Option.some q => PyVal.num q
  | Option.none => PyVal.none

/-- Echo of the normalized input, for the `raw_expense` field
(spec section 3). -/
def rawExpenseJson (e : ExpenseRecord) (amt : Option ℚ) (cat : String) : PyVal :=
  PyVal.dict
    [("vendor_name", e.vendor_name.getD PyVal.none),
     ("date", e.date.getD PyVal.none),
     ("total_amount", optNumJson amt),
     ("expense_category", PyVal.str cat),
     ("nights", e.nights.getD PyVal.none),
     ("justification", e.justification.getD PyVal.none),
     ("cost_center", e.cost_center.getD PyVal.none),
     ("approver", e.approver.getD PyVal.none)]

/-- Modelled from the spec: the single `validate` operation (sections 4.5
and 6): resolve the policy, normalize, evaluate the rules, resolve the
status and assemble the JSON-serializable `ValidationResult` with exactly
the nine documented fields. -/
def validate (e : ExpenseRecord) (c : EvaluationContext) : PyVal :=
  let pol := resolvePolicy c.policy_overrides
  let n := normalizeExpense e c
  let ev := evaluate pol e c
  let st := resolve ev.flags ev.auto_approved
  PyVal.dict
    [("success", PyVal.bool true),
     ("status", PyVal.str (statusString st)),
     ("total_amount", optNumJson n.1),
     ("category", PyVal.str n.2),
     ("issues", PyVal.list (ev.issues.map PyVal.str)),
     ("flags", PyVal.list (ev.flags.map PyVal.str)),
     ("suggested_actions", PyVal.list (ev.actions.map PyVal.str)),
     ("auto_approved", PyVal.bool ev.auto_approved),
     ("raw_expense", rawExpenseJson e n.1 n.2)]

/-- Modelled from the spec: the engine followed by the best-effort audit-sink
write (sections 4.5 and 7): the sink is called once on the assembled result;
a sink failure is caught and discarded and the result is returned unchanged. -/
def validateWithSink (sink : PyVal → Except String Unit)
    (e : ExpenseRecord) (c : EvaluationContext) : PyVal :=
  let r := validate e c
  match sink r with
  | Except.ok _ => r
  | Except.error _ => r

/-!
## LLM data-quality validation agent (embedded from src/agents.py)

`validation_agent` (src/agents.py, lines 227 to 474) validates extracted
receipt data with an LLM.  The external collaborators are parameters of the
embedding: `jsonLoads` models the standard-library `json.loads` (an error is
a `JSONDecodeError` with its message), `llm` is the outcome of the
chat-completion call, and `sinkFails` says whether `audit_log.save` raises.
-/

/-- Outcome of the external LLM chat-completion call of lines 386 to 401. -/
inductive LLMOutcome where
  | raises : String → LLMOutcome
  | returns : String → LLMOutcome

/-- One run of the agent: the object serialized as its JSON return value,
whether the chat-completion call was made, and the results passed to
`audit_log.save`. -/
structure AgentRun where
  output : PyVal
  modelCalled : Bool
  auditResults : List PyVal

/-- The early-return object of lines 245 to 251 (no data to validate). -/
def noDataResult : PyVal :=
  PyVal.dict
    [("success", PyVal.bool false),
     ("error", PyVal.str "No data provided for validation"),
     ("validated_data", PyVal.none),
     ("validation_errors", PyVal.list [PyVal.str "Missing input data"]),
     ("validation_warnings", PyVal.list [])]

/-- The JSON-parse-failure object of lines 429 to 436. -/
def parseErrorResult (msg raw : String) : PyVal :=
  PyVal.dict
    [("success", PyVal.bool false),
     ("error", PyVal.str ("Failed to parse validation response as JSON: " ++ msg)),
     ("raw_response", PyVal.str raw),
     ("validated_data", PyVal.none),
     ("validation_errors", PyVal.list [PyVal.str "LLM returned invalid JSON format"]),
     ("validation_warnings", PyVal.list [])]

/-- The blanket-except object of lines 468 to 474. -/
def agentErrorResult (msg : String) : PyVal :=
  PyVal.dict
    [("success", PyVal.bool false),
     ("error", PyVal.str ("Validation agent error: " ++ msg)),
     ("validated_data", PyVal.none),
     ("validation_errors", PyVal.list [PyVal.str msg]),
     ("validation_warnings", PyVal.list [])]

/-- Removal of a leading `json` tag after a code fence (part of the
`re.search` pattern of line 410). -/
def dropJsonTag (l : List Char) : List Char :=
  match l with
  | 'j' :: 's' :: 'o' :: 'n' :: rest => rest
  | _ => l

/-- Removal of leading and trailing copies of one character (Python
`str.strip` with an argument, line 417). -/
def stripChar (c : Char) (l : List Char) : List Char :=
  ((l.dropWhile (· = c)).reverse.dropWhile (· = c)).reverse

/-- Markdown cleaning of the model response, lines 405 to 417: take the
content between the first pair of triple-backtick fences when present
(dropping a `json` tag), then strip stray backticks and whitespace. -/
def cleanResponse (s : String) : String :=
  let t := strTrim s
  let parts := t.splitOn (String.mk ['`', '`', '`'])
  let inner :=
    match parts with
    | _ :: second :: _ :: _ => strTrim (String.mk (dropJsonTag second.data))
    | _ => t
  strTrim (String.mk (stripChar '`' inner.data))

/-- Python `dict.setdefault`: insert the pair at the end when the key is
absent (lines 422 to 426). -/
def setDefault (fs : List (String × PyVal)) (k : String) (v : PyVal) :
    List (String × PyVal) :=
  match lookupStr fs k with
  | Option.some _ => fs
  | Option.none => fs ++ [(k, v)]

/-- The five `setdefault` calls of lines 422 to 426. -/
def applyDefaults (fs : List (String × PyVal)) (extracted : PyVal) :
    List (String × PyVal) :=
  let f1 := setDefault fs "validation_status" (PyVal.str "needs_correction")
  let f2 := setDefault f1 "is_valid" (PyVal.bool false)
  let f3 := setDefault f2 "validation_errors" (PyVal.list [])
  let f4 := setDefault f3 "validation_warnings" (PyVal.list [])
  setDefault f4 "corrected_data" extracted

/-- Coarse model of Python `str` on a value; it is used only inside message
strings and no claim depends on the exact rendering. -/
def pyStr : PyVal → String
  | PyVal.none => "None"
  | PyVal.bool b => if b then "True" else "False"
  | PyVal.num q => toString q
  | PyVal.str s => s
  | PyVal.list _ => "[...]"
  | PyVal.dict _ => "{...}"

/-- One element of the `validation_errors`/`validation_warnings` mapping of
lines 443 to 450: a dict maps to its `issue` entry (default `str(err)`),
anything else to `str(err)`. -/
def issueOf (err : PyVal) : PyVal :=
  match err with
  | PyVal.dict fs =>
    match lookupStr fs "issue" with
    | Option.some v => v
    | Option.none => PyVal.str (pyStr (PyVal.dict fs))
  | v => PyVal.str (pyStr v)

/-- Python iteration over a value: lists yield elements, strings yield
one-character strings, dicts yield keys, everything else raises. -/
def pyIter : PyVal → Except String (List PyVal)
  | PyVal.list xs => Except.ok xs
  | PyVal.str s => Except.ok (s.data.map (fun ch => PyVal.str (String.mk [ch])))
  | PyVal.dict fs => Except.ok (fs.map (fun kv => PyVal.str kv.1))
  | _ => Except.error "TypeError: not iterable"

/-- The final-result assembly of lines 439 to 456. -/
def buildResult (vr : List (String × PyVal)) : Except String PyVal := do
  let errs ← pyIter ((lookupStr vr "validation_errors").getD (PyVal.list []))
  let warns ← pyIter ((lookupStr vr "validation_warnings").getD (PyVal.list []))
  Except.ok (PyVal.dict
    [("success", (lookupStr vr "is_valid").getD (PyVal.bool false)),
     ("status", (lookupStr vr "validation_status").getD PyVal.none),
     ("validated_data", (lookupStr vr "corrected_data").getD PyVal.none),
     ("validation_errors", PyVal.list (errs.map issueOf)),
     ("validation_warnings", PyVal.list (warns.map issueOf)),
     ("validation_details", PyVal.dict vr),
     ("data_quality", PyVal.dict
       [("score", (lookupStr vr "data_quality_score").getD (PyVal.num 0)),
        ("summary", (lookupStr vr "validation_summary").getD (PyVal.dict []))])])

/-- `validation_agent` of src/agents.py, lines 227 to 474.  The guard of
lines 241 to 251 returns the no-data object before the model call and
before any audit write; otherwise the try-block of lines 382 to 474 runs:
an exception anywhere in it (model call, `setdefault` on a non-dict,
iteration over a non-iterable, audit save) is caught by the blanket
`except` and reported as an agent error. -/
def validation_agent (jsonLoads : String → Except String PyVal)
    (llm : LLMOutcome) (sinkFails : Option String) (query : String)
    (env_variable : Option (List (String × PyVal))) : AgentRun :=
  let extracted_data : PyVal :=
    match env_variable with
    | Option.some fs =>
      if fs.isEmpty then PyVal.dict []
      else (lookupStr fs "extracted_data").getD (PyVal.dict [])
    | Option.none => PyVal.dict []
  if !pyTruthy extracted_data then
    { output := noDataResult, modelCalled := false, auditResults := [] }
  else
    match llm with
    | LLMOutcome.raises msg =>
      { output := agentErrorResult msg, modelCalled := true, auditResults := [] }
    | LLMOutcome.returns content =>
      let validation_response := strTrim content
      let clean := cleanResponse validation_response
      match jsonLoads clean with
      | Except.error emsg =>
        { output := parseErrorResult emsg validation_response,
          modelCalled := true, auditResults := [] }
      | Except.ok (PyVal.dict fs) =>
        let vr := applyDefaults fs extracted_data
        match buildResult vr with
        | Except.error emsg =>
          { output := agentErrorResult emsg, modelCalled := true, auditResults := [] }
        | Except.ok result =>
          match sinkFails with
          | Option.some emsg =>
            { output := agentErrorResult emsg, modelCalled := true, auditResults := [] }
          | Option.none =>
            { output := result, modelCalled := true, auditResults := [result] }
      | Except.ok _ =>
        { output := agentErrorResult "setdefault: AttributeError",
          modelCalled := true, auditResults := [] }

/-!
## Audit logger (embedded from src/audit.py)

`AuditLog.save` (src/audit.py, lines 36 to 79) parses string results,
builds one entry and appends it to the stored entry list.  The file is
modelled by the stored entry list; `jsonLoads` again models `json.loads`
(`Option.none` is a `JSONDecodeError`).
-/

/-- The `data` field of an audit entry, line 68:
`result.get("extracted_data") or result.get("data") or result`. -/
def auditDataOf (fs : List (String × PyVal)) : PyVal :=
  let a := (lookupStr fs "extracted_data").getD PyVal.none
  if pyTruthy a then a
  else
    let b := (lookupStr fs "data").getD PyVal.none
    if pyTruthy b then b else PyVal.dict fs

/-- `AuditLog.save`: a string result is parsed, and wrapped as
`raw_output` when parsing fails (lines 56 to 60); one entry is built
(lines 63 to 72) and appended to the stored list (lines 75 to 77); the
entry is returned.  `result.get` on a non-dict raises (`Except.error`). -/
def AuditLog.save (jsonLoads : String → Option PyVal) (timestamp : String)
    (agent_name : String) (result : PyVal) (user_id : String)
    (metadata : Option PyVal) (entries : List PyVal) :
    Except String (List PyVal × PyVal) :=
  let parsed :=
    match result with
    | PyVal.str s =>
      match jsonLoads s with
      | Option.some v => v
      | Option.none => PyVal.dict [("raw_output", PyVal.str s)]
    | v => v
  match parsed with
  | PyVal.dict fs =>
    let entry := PyVal.dict
      [("timestamp", PyVal.str timestamp),
       ("agent", PyVal.str agent_name),
       ("user_id", PyVal.str user_id),
       ("success", (lookupStr fs "success").getD PyVal.none),
       ("data", auditDataOf fs),
       ("error", (lookupStr fs "error").getD PyVal.none),
       ("notes", (lookupStr fs "processing_notes").getD (PyVal.list [])),
       ("metadata", metadata.getD (PyVal.dict []))]
    Except.ok (entries ++ [entry], entry)
  | _ => Except.error "AttributeError: result has no attribute get"

/-- State threaded through repeated engine evaluations: the audit entries
and a clock supplying entry timestamps. -/
structure World where
  entries : List PyVal
  clock : Nat

/-- One engine evaluation with its audit write (spec sections 4.5 and 7):
the result is computed, an audit entry is appended best-effort, and the
clock advances; an audit failure leaves the entries unchanged and never
affects the returned result. -/
def runValidate (w : World) (e : ExpenseRecord) (c : EvaluationContext) :
    PyVal × World :=
  let r := validate e c
  let uid := c.user_id.getD "unknown"
  match AuditLog.save (fun _ => Option.none) (toString w.clock)
      "Validation Agent" r uid Option.none w.entries with
  | Except.ok es_entry => (r, { entries := es_entry.1, clock := w.clock + 1 })
  | Except.error _ => (r, { entries := w.entries, clock := w.clock + 1 })

/-!
## Theorems

Helper lemmas first, then one theorem per claim (with a witness when the
theorem carries hypotheses).
-/

/-- The evaluation-friendly `ratDiv` is ordinary division on `ℚ`. -/
theorem ratDiv_eq_div (a b : ℚ) : ratDiv a b = a / b := by
  rw [ratDiv, Rat.divInt_eq_div]
  push_cast
  rcases eq_or_ne b 0 with hb | hb
  · subst hb
    simp
  · have hbn : (b.num : ℚ) ≠ 0 := Int.cast_ne_zero.mpr (Rat.num_ne_zero.mpr hb)
    have had : ((a.den : ℕ) : ℚ) ≠ 0 := Nat.cast_ne_zero.mpr a.den_nz
    have hbd : ((b.den : ℕ) : ℚ) ≠ 0 := Nat.cast_ne_zero.mpr b.den_nz
    conv_rhs => rw [← Rat.num_div_den a, ← Rat.num_div_den b]
    field_simp

/-- Claim C3: for every flag list and auto-approved boolean, status
resolution returns exactly one of the four statuses, and whenever
`auto_approved = true` the returned status is `auto_approved`. -/
theorem resolve_total_and_auto (flags : List String) (auto : Bool) :
    (resolve flags auto = Status.auto_approved ∨
      resolve flags auto = Status.approved ∨
      resolve flags auto = Status.needs_correction ∨
      resolve flags auto = Status.requires_higher_approval) ∧
    (auto = true → resolve flags auto = Status.auto_approved) := by
  constructor
  · unfold resolve
    split_ifs <;> simp
  · intro h
    simp [resolve, h]

/-- Witness for C3 at a concrete input. -/
theorem resolve_total_and_auto_witness :
    resolve ["missing_receipt"] true = Status.auto_approved :=
  (resolve_total_and_auto ["missing_receipt"] true).2 rfl

/-- Claim C4: status resolution follows the fixed first-match-wins
precedence of spec section 4.4; in particular a flag set with both a
rule-2 flag and a rule-3 flag resolves to `requires_higher_approval`. -/
theorem resolve_precedence (flags : List String) :
    (resolve flags true = Status.auto_approved) ∧
    (("route_for_higher_approval" ∈ flags ∨ "lodging_limit_exceeded" ∈ flags ∨
        "airfare_limit_exceeded" ∈ flags) →
      resolve flags false = Status.requires_higher_approval) ∧
    (¬("route_for_higher_approval" ∈ flags ∨ "lodging_limit_exceeded" ∈ flags ∨
        "airfare_limit_exceeded" ∈ flags) →
      ("missing_receipt" ∈ flags ∨ "incomplete_reporting" ∈ flags ∨
        "invalid_category" ∈ flags) →
      resolve flags false = Status.needs_correction) ∧
    (¬("route_for_higher_approval" ∈ flags ∨ "lodging_limit_exceeded" ∈ flags ∨
        "airfare_limit_exceeded" ∈ flags) →
      ¬("missing_receipt" ∈ flags ∨ "incomplete_reporting" ∈ flags ∨
        "invalid_category" ∈ flags) →
      resolve flags false = Status.approved) ∧
    resolve ["lodging_limit_exceeded", "missing_receipt"] false =
      Status.requires_higher_approval := by
  refine ⟨by simp [resolve], ?_, ?_, ?_, by decide⟩
  · intro h2
    simp [resolve, h2]
  · intro h2 h3
    simp [resolve, h2, h3]
  · intro h2 h3
    simp [resolve, h2, h3]

/-- Witness for C4 at a concrete input. -/
theorem resolve_precedence_witness :
    resolve ["missing_receipt"] false = Status.needs_correction :=
  (resolve_precedence ["missing_receipt"]).2.2.1 (by decide) (by decide)

/-- Claim C7: adding `lodging_limit_exceeded` to any flag set (with
`auto_approved = false`) that resolves to `needs_correction` or `approved`
forces `requires_higher_approval`. -/
theorem resolve_lodging_monotone (l1 l2 : List String)
    (h : resolve (l1 ++ l2) false = Status.needs_correction ∨
      resolve (l1 ++ l2) false = Status.approved) :
    resolve (l1 ++ "lodging_limit_exceeded" :: l2) false =
      Status.requires_higher_approval := by
  have hm : "lodging_limit_exceeded" ∈ l1 ++ "lodging_limit_exceeded" :: l2 := by
    simp
  simp [resolve, hm]

/-- Witness for C7 at a concrete input. -/
theorem resolve_lodging_monotone_witness :
    resolve (["missing_receipt"] ++ "lodging_limit_exceeded" :: []) false =
      Status.requires_higher_approval :=
  resolve_lodging_monotone ["missing_receipt"] [] (Or.inl (by decide))

/-- Claim C1: for every expense record and evaluation context, `validate`
returns an object whose fields are exactly `success`, `status`,
`total_amount`, `category`, `issues`, `flags`, `suggested_actions`,
`auto_approved`, `raw_expense`, in that spelling. -/
theorem validate_result_fields (e : ExpenseRecord) (c : EvaluationContext) :
    pyKeys (validate e c) =
      ["success", "status", "total_amount", "category", "issues", "flags",
        "suggested_actions", "auto_approved", "raw_expense"] := rfl

/-- Claim C2: for every audit sink, expense and context, a failing sink
write is caught and discarded: the engine returns the same result as
without the sink, and that result has `success = true`; a sink failure is
never surfaced as an error result. -/
theorem validate_sink_failure_ignored (sink : PyVal → Except String Unit)
    (e : ExpenseRecord) (c : EvaluationContext) :
    validateWithSink sink e c = validate e c ∧
    pyGet (validateWithSink sink e c) "success" =
      Option.some (PyVal.bool true) := by
  have hsw : validateWithSink sink e c = validate e c := by
    unfold validateWithSink
    rcases hsk : sink (validate e c) with u | msg <;> simp [hsk]
  refine ⟨hsw, ?_⟩
  rw [hsw]
  rfl

/-- Claim C5: evaluating the same `(expense, context)` twice, the second
run starting from the post-state of the first, yields identical `issues`,
`flags` and `status`; the engine result does not depend on the audit state
or clock. -/
theorem validate_idempotent (w : World) (e : ExpenseRecord)
    (c : EvaluationContext) :
    pyGet (runValidate w e c).1 "issues" =
      pyGet (runValidate (runValidate w e c).2 e c).1 "issues" ∧
    pyGet (runValidate w e c).1 "flags" =
      pyGet (runValidate (runValidate w e c).2 e c).1 "flags" ∧
    pyGet (runValidate w e c).1 "status" =
      pyGet (runValidate (runValidate w e c).2 e c).1 "status" :=
  ⟨rfl, rfl, rfl⟩

/-- Flag projection of a two-way branch whose branches carry no flags. -/
theorem ite_flags_nil {c : Prop} [Decidable c] (A B : RuleOut)
    (hA : A.flags = []) (hB : B.flags = []) : (if c then A else B).flags = [] := by
  split <;> assumption

/-- Rule 1 never emits a dedicated flag. -/
theorem rule1_flags (e : ExpenseRecord) : (rule1 e).flags = [] := by
  unfold rule1
  dsimp only
  exact ite_flags_nil _ _ rfl rfl

/-- Rule 2 never emits the lodging flag. -/
theorem lodging_rule2_iff (att : List PyVal) (amt : Option ℚ) :
    ("lodging_limit_exceeded" ∈ (rule2 att amt).flags) ↔ False := by
  unfold rule2
  rcases amt with _ | a
  · simp [RuleOut.empty]
  · dsimp only
    split <;> simp [RuleOut.empty]

/-- Rule 4 never emits the lodging flag. -/
theorem lodging_rule4_iff (pol : PolicyConfig) (amt : Option ℚ) (cat : String) :
    ("lodging_limit_exceeded" ∈ (rule4 pol amt cat).flags) ↔ False := by
  unfold rule4
  rcases amt with _ | a
  · simp [RuleOut.empty]
  · dsimp only
    split <;> simp [RuleOut.empty]

/-- Rule 5 never emits the lodging flag. -/
theorem lodging_rule5_iff (cat : String) :
    ("lodging_limit_exceeded" ∈ (rule5 cat).flags) ↔ False := by
  unfold rule5
  split <;> simp [RuleOut.empty]

/-- Rule 6 never emits the lodging flag. -/
theorem lodging_rule6_iff (e : ExpenseRecord) :
    ("lodging_limit_exceeded" ∈ (rule6 e).flags) ↔ False := by
  unfold rule6
  split <;> simp [RuleOut.empty]

/-- Rule 7 never emits the lodging flag. -/
theorem lodging_rule7_iff (pol : PolicyConfig) (e : ExpenseRecord)
    (c : EvaluationContext) (amt : Option ℚ) :
    ("lodging_limit_exceeded" ∈ (rule7 pol e c amt).flags) ↔ False := by
  unfold rule7
  rcases amt with _ | a
  · simp [RuleOut.empty]
  · dsimp only
    split_ifs <;> simp_all [RuleOut.empty]

/-- The auto-approval flag is never the lodging flag. -/
theorem lodging_auto_iff (b : Bool) :
    ("lodging_limit_exceeded" ∈ (if b then ["auto_approved_routine"] else [])) ↔
      False := by
  cases b <;> simp

/-- Rule 3 emits the lodging flag exactly under its firing condition. -/
theorem rule3_mem_iff (pol : PolicyConfig) (e : ExpenseRecord)
    (c : EvaluationContext) (amt : Option ℚ) (cat : String) :
    "lodging_limit_exceeded" ∈ (rule3 pol e c amt cat).flags ↔
      ∃ v a, nightsSupplied e c = Option.some v ∧ amt = Option.some a ∧
        cat = "lodging" ∧
        ratDiv a (nightsCount v : ℚ) > pol.lodging_limit_per_night := by
  unfold rule3
  rcases hn : nightsSupplied e c with _ | v
  · rcases amt with _ | a <;> simp [RuleOut.empty]
  · rcases amt with _ | a
    · simp [RuleOut.empty]
    · dsimp only
      split_ifs with hcond
      · simp only [List.mem_singleton, true_iff]
        exact ⟨v, a, rfl, rfl, hcond.1, hcond.2⟩
      · simp only [RuleOut.empty, List.not_mem_nil, false_iff, not_exists]
        rintro v2 a2 ⟨hv, ha, hcat, hgt⟩
        cases hv
        cases ha
        exact hcond ⟨hcat, hgt⟩

/-- Membership of the lodging flag in the full flag list reduces to rule 3. -/
theorem evaluate_lodging_iff (pol : PolicyConfig) (e : ExpenseRecord)
    (c : EvaluationContext) :
    "lodging_limit_exceeded" ∈ (evaluate pol e c).flags ↔
      "lodging_limit_exceeded" ∈
        (rule3 pol e c (normalizeExpense e c).1 (normalizeExpense e c).2).flags := by
  simp [evaluate, List.mem_append, rule1_flags, lodging_rule2_iff,
    lodging_rule4_iff, lodging_rule5_iff, lodging_rule6_iff, lodging_rule7_iff,
    lodging_auto_iff]

/-- Claim C6: the lodging per-night rule fires exactly when the normalized
category is `"lodging"`, a nights value is explicitly supplied (context
over expense record) and `total_amount / nights` exceeds the limit; the
nights count defaults to 1 on conversion failure and is always at least 1;
with no nights supplied the rule never fires. -/
theorem lodging_rule_spec (pol : PolicyConfig) (e : ExpenseRecord)
    (c : EvaluationContext) :
    ("lodging_limit_exceeded" ∈ (evaluate pol e c).flags ↔
      ∃ v a, nightsSupplied e c = Option.some v ∧
        (normalizeExpense e c).1 = Option.some a ∧
        (normalizeExpense e c).2 = "lodging" ∧
        a / (nightsCount v : ℚ) > pol.lodging_limit_per_night) ∧
    (∀ v, 1 ≤ nightsCount v) ∧
    (∀ v m, pyInt v = Except.error m → nightsCount v = 1) ∧
    (nightsSupplied e c = Option.none →
      "lodging_limit_exceeded" ∉ (evaluate pol e c).flags) := by
  refine ⟨?_, ?_, ?_, ?_⟩
  · simp only [evaluate_lodging_iff, rule3_mem_iff, ratDiv_eq_div]
  · intro v
    unfold nightsCount
    exact le_max_right _ 1
  · intro v m hm
    unfold nightsCount
    rw [hm]
    simp
  · intro hn
    simp [evaluate_lodging_iff, rule3_mem_iff, hn]

/-- Witness for C6: scenario D of the repository test driver (lodging at
900 over 3 nights) carries the lodging flag. -/
theorem lodging_rule_spec_witness :
    "lodging_limit_exceeded" ∈
      (evaluate (resolvePolicy [])
        { vendor_name := Option.some (PyVal.str "Hotel Lux"),
          date := Option.some (PyVal.str "2025-12-01"),
          total_amount := Option.some (PyVal.num 900),
          expense_category := Option.some (PyVal.str "lodging"),
          nights := Option.some (PyVal.num 3), justification := Option.none,
          cost_center := Option.none, approver := Option.none }
        { attachments := [PyVal.str "receipt.jpg"], claimed_amount := Option.none,
          nights := Option.none, policy_overrides := [],
          user_id := Option.none }).flags := by
  apply (lodging_rule_spec _ _ _).1.mpr
  refine ⟨PyVal.num 3, 900, rfl, rfl, rfl, ?_⟩
  have h3 : nightsCount (PyVal.num 3) = 3 := rfl
  rw [h3]
  norm_num [resolvePolicy, defaultPolicy]

/-- Claim C8: normalization is total (it never raises by construction):
the amount is taken from `expense.total_amount`, falling back to
`context.claimed_amount` only when the former is absent, with any
conversion failure yielding `Option.none`; the category is the lower-cased
`expense_category` when it is a string and `"other"` otherwise; `None` and
non-numeric strings are conversion failures. -/
theorem normalize_spec (e : ExpenseRecord) (c : EvaluationContext) :
    (∀ v, e.total_amount = Option.some v →
      (normalizeExpense e c).1 = (pyFloat v).toOption) ∧
    (e.total_amount = Option.none →
      ∀ v, c.claimed_amount = Option.some v →
        (normalizeExpense e c).1 = (pyFloat v).toOption) ∧
    (e.total_amount = Option.none → c.claimed_amount = Option.none →
      (normalizeExpense e c).1 = Option.none) ∧
    (∀ s, e.expense_category = Option.some (PyVal.str s) →
      (normalizeExpense e c).2 = strLower s) ∧
    ((∀ s, e.expense_category ≠ Option.some (PyVal.str s)) →
      (normalizeExpense e c).2 = "other") ∧
    (pyFloat PyVal.none).toOption = Option.none ∧
    (pyFloat (PyVal.str "n-a")).toOption = Option.none := by
  refine ⟨?_, ?_, ?_, ?_, ?_, rfl, rfl⟩
  · intro v hv
    simp [normalizeExpense, hv]
  · intro h0 v hv
    simp [normalizeExpense, h0, hv]
  · intro h0 h1
    simp [normalizeExpense, h0, h1]
  · intro s hs
    simp [normalizeExpense, hs]
  · intro h
    rcases he : e.expense_category with _ | v
    · simp [normalizeExpense, he]
    · rcases v with _ | b | q | s | xs | fs
      · simp [normalizeExpense, he]
      · simp [normalizeExpense, he]
      · simp [normalizeExpense, he]
      · exact absurd he (h s)
      · simp [normalizeExpense, he]
      · simp [normalizeExpense, he]

/-- Witness for C8: a non-numeric `total_amount` string yields a null
amount even when a numeric claimed amount is available as fallback. -/
theorem normalize_spec_witness :
    (normalizeExpense
      { vendor_name := Option.none, date := Option.none,
        total_amount := Option.some (PyVal.str "abc"),
        expense_category := Option.none, nights := Option.none,
        justification := Option.none, cost_center := Option.none,
        approver := Option.none }
      { attachments := [], claimed_amount := Option.some (PyVal.num 5),
        nights := Option.none, policy_overrides := [],
        user_id := Option.none }).1 = Option.none := by
  have h := (normalize_spec
    { vendor_name := Option.none, date := Option.none,
      total_amount := Option.some (PyVal.str "abc"),
      expense_category := Option.none, nights := Option.none,
      justification := Option.none, cost_center := Option.none,
      approver := Option.none }
    { attachments := [], claimed_amount := Option.some (PyVal.num 5),
      nights := Option.none, policy_overrides := [],
      user_id := Option.none }).1 (PyVal.str "abc") rfl
  rw [h]
  rfl

/-- Claim C9: when the environment is absent or carries no non-empty
`extracted_data` entry, `validation_agent` returns the no-data object
(`success = false`, error `No data provided for validation`,
`validated_data = None`, `validation_errors = ["Missing input data"]`)
without calling the model and without writing to the audit log. -/
theorem validation_agent_no_data (jsonLoads : String → Except String PyVal)
    (llm : LLMOutcome) (sinkFails : Option String) (query : String)
    (env : Option (List (String × PyVal)))
    (h : env = Option.none ∨ ∃ fs, env = Option.some fs ∧
      ∀ v, lookupStr fs "extracted_data" = Option.some v → pyTruthy v = false) :
    validation_agent jsonLoads llm sinkFails query env =
      { output := noDataResult, modelCalled := false, auditResults := [] } ∧
    pyGet noDataResult "success" = Option.some (PyVal.bool false) ∧
    pyGet noDataResult "error" =
      Option.some (PyVal.str "No data provided for validation") ∧
    pyGet noDataResult "validated_data" = Option.some PyVal.none ∧
    pyGet noDataResult "validation_errors" =
      Option.some (PyVal.list [PyVal.str "Missing input data"]) := by
  refine ⟨?_, rfl, rfl, rfl, rfl⟩
  rcases h with h | ⟨fs, hfs, hv⟩
  · subst h
    rfl
  · subst hfs
    unfold validation_agent
    rcases hemp : fs.isEmpty with hf | ht
    · rcases hl : lookupStr fs "extracted_data" with _ | v
      · simp [hemp, hl, pyTruthy]
      · have := hv v hl
        simp [hemp, hl, this]
    · simp [hemp, pyTruthy]

/-- Witness for C9: an absent environment takes the no-data path. -/
theorem validation_agent_no_data_witness :
    validation_agent (fun _ => Except.error "unused")
      (LLMOutcome.returns "irrelevant") Option.none "validate this"
      Option.none =
      { output := noDataResult, modelCalled := false, auditResults := [] } :=
  (validation_agent_no_data (fun _ => Except.error "unused")
    (LLMOutcome.returns "irrelevant") Option.none "validate this"
    Option.none (Or.inl rfl)).1

/-- Claim C10: every successful `AuditLog.save` appends exactly one entry,
leaving all previously stored entries unchanged and in place, and returns
the appended entry; a string result that fails JSON parsing is stored
wrapped as a `raw_output` object instead of being rejected. -/
theorem audit_save_append (jsonLoads : String → Option PyVal)
    (ts agent uid : String) (md : Option PyVal) (entries : List PyVal) :
    (∀ result st entry,
      AuditLog.save jsonLoads ts agent result uid md entries =
        Except.ok (st, entry) → st = entries ++ [entry]) ∧
    (∀ s, jsonLoads s = Option.none →
      ∃ entry,
        AuditLog.save jsonLoads ts agent (PyVal.str s) uid md entries =
          Except.ok (entries ++ [entry], entry) ∧
        pyGet entry "data" =
          Option.some (PyVal.dict [("raw_output", PyVal.str s)])) := by
  constructor
  · intro result st entry hok
    unfold AuditLog.save at hok
    dsimp only at hok
    split at hok
    · rcases hok with ⟨⟩
      rfl
    · cases hok
  · intro s hjs
    refine ⟨PyVal.dict
      [("timestamp", PyVal.str ts),
       ("agent", PyVal.str agent),
       ("user_id", PyVal.str uid),
       ("success", PyVal.none),
       ("data", PyVal.dict [("raw_output", PyVal.str s)]),
       ("error", PyVal.none),
       ("notes", PyVal.list []),
       ("metadata", md.getD (PyVal.dict []))], ?_, rfl⟩
    unfold AuditLog.save
    simp only [hjs]
    rfl

/-- Witness for C10: a string result that fails JSON parsing is appended
wrapped as a `raw_output` object. -/
theorem audit_save_append_witness :
    ∃ entry,
      AuditLog.save (fun _ => Option.none) "t0" "Validation Agent"
        (PyVal.str "not json") "u1" Option.none [] =
        Except.ok ([] ++ [entry], entry) ∧
      pyGet entry "data" =
        Option.some (PyVal.dict [("raw_output", PyVal.str "not json")]) :=
  (audit_save_append (fun _ => Option.none) "t0" "Validation Agent" "u1"
    Option.none []).2 "not json" rfl
